import Mathlib

/-!
Verification of the event deduplication and notification-throttling engine
of the Snowflake procedure monitor (src/monitor.py).

The three SQLite tables (monitor_sessions, processed_queries,
running_procedures) are modelled as lists of rows; timestamps are integers
(seconds).  A database handle is `Option Store`: `none` models the sqlite
layer raising `sqlite3.Error` on access.  Each store operation mirrors one
method of `SnowflakeProcedureMonitor`; write operations additionally return
a `Bool` that is `true` exactly when a Python exception would escape the
method to its caller (the methods wrap their bodies in
`try ... except sqlite3.Error: log`, so this component is always `false`).
-/

namespace SnowflakeMonitor

/-- Row of the `monitor_sessions` table. -/
structure SessionRow where
  session_id : Nat
  start_time : Int
  end_time : Option Int
  status : String
deriving Repr, DecidableEq

/-- Row of the `processed_queries` table. -/
structure ProcessedRow where
  query_id : String
  session_id : Nat
  processed_at : Int
deriving Repr, DecidableEq

/-- Row of the `running_procedures` table. -/
structure RunningRow where
  query_id : String
  session_id : Nat
  procedure_name : String
  first_notified_at : Int
  last_notified_at : Int
  status : String
deriving Repr, DecidableEq

/-- The whole SQLite database. -/
structure Store where
  sessions : List SessionRow
  processed : List ProcessedRow
  running : List RunningRow
deriving Repr, DecidableEq

/-- A database handle; `none` models `sqlite3.Error` being raised on access. -/
abbrev DB := Option Store

/-- `WHERE query_id = ? AND session_id = ?` on `processed_queries`. -/
def processedMatch (qid : String) (sid : Nat) (r : ProcessedRow) : Bool :=
  r.query_id == qid && r.session_id == sid

/-- `WHERE query_id = ? AND session_id = ?` on `running_procedures`. -/
def runningMatch (qid : String) (sid : Nat) (r : RunningRow) : Bool :=
  r.query_id == qid && r.session_id == sid

/-- `SELECT ... FROM running_procedures WHERE query_id = ? AND session_id = ?`
(at most one row by the primary key). -/
def findRunning (s : Store) (qid : String) (sid : Nat) : Option RunningRow :=
  s.running.find? (runningMatch qid sid)

/-- `_is_query_processed` (monitor.py:254-279): `SELECT 1 FROM processed_queries
WHERE query_id = ? AND session_id = ?`, returns whether a row came back;
on `sqlite3.Error` it logs and returns `False`. -/
def is_query_processed (db : DB) (sid : Nat) (qid : String) : Bool :=
  match db with
  | none => false
  | some s => s.processed.any (processedMatch qid sid)

/-- `_mark_query_processed` (monitor.py:281-300): `INSERT OR IGNORE INTO
processed_queries (query_id, session_id) VALUES (?, ?)`; on `sqlite3.Error`
it logs and returns normally.  The second component records whether an
exception escapes to the caller. -/
def mark_query_processed (db : DB) (sid : Nat) (qid : String) (now : Int) :
    DB × Bool :=
  match db with
  | none => (none, false)
  | some s =>
      if s.processed.any (processedMatch qid sid) then (some s, false)
      else
        (some { s with
            processed :=
              s.processed ++ [{ query_id := qid, session_id := sid, processed_at := now }] },
          false)

/-- `_should_notify_running_procedure` (monitor.py:302-361): no row for
`(query_id, session_id)` means first sighting, notify; otherwise notify iff
`time_since_last.total_seconds() >= RUNNING_PROCEDURE_THROTTLE_MINUTES * 60`;
on `sqlite3.Error` it logs and returns `False`. -/
def should_notify_running_procedure (db : DB) (sid : Nat) (qid : String)
    (now : Int) (throttleMinutes : Int) : Bool :=
  match db with
  | none => false
  | some s =>
      match findRunning s qid sid with
      | none => true
      | some r => decide (throttleMinutes * 60 ≤ now - r.last_notified_at)

/-- The `UPDATE running_procedures SET last_notified_at = ?, status = 'RUNNING'
WHERE query_id = ? AND session_id = ?` statement of
`_mark_running_procedure_notified`. -/
def updateRunningLast (l : List RunningRow) (qid : String) (sid : Nat)
    (now : Int) : List RunningRow :=
  l.map fun r =>
    if runningMatch qid sid r then
      { r with last_notified_at := now, status := "RUNNING" }
    else r

/-- One successful-commit effect of `_mark_running_procedure_notified`
(monitor.py:363-408) on the store: if a row exists for
`(query_id, session_id)`, update only `last_notified_at` (and `status`);
otherwise insert a fresh row with both timestamps set to `now`. -/
def recordStep (s : Store) (sid : Nat) (qid pname : String) (t : Int) : Store :=
  match findRunning s qid sid with
  | some _ => { s with running := updateRunningLast s.running qid sid t }
  | none =>
      { s with
          running := s.running ++
            [{ query_id := qid, session_id := sid, procedure_name := pname,
               first_notified_at := t, last_notified_at := t,
               status := "RUNNING" }] }

/-- `_mark_running_procedure_notified` (monitor.py:363-408); on
`sqlite3.Error` it logs and returns normally.  The second component records
whether an exception escapes to the caller. -/
def mark_running_procedure_notified (db : DB) (sid : Nat) (qid pname : String)
    (now : Int) : DB × Bool :=
  match db with
  | none => (none, false)
  | some s => (some (recordStep s sid qid pname now), false)

/-- A sequence of `_mark_running_procedure_notified` calls at the given
times, in order. -/
def record_calls (s : Store) (sid : Nat) (qid pname : String) :
    List Int → Store
  | [] => s
  | t :: ts => record_calls (recordStep s sid qid pname t) sid qid pname ts

/-- `cleanup_old_records` (monitor.py:631-685): select the ids of sessions
with `start_time < now - days`, then delete the `processed_queries`,
`running_procedures` and `monitor_sessions` rows carrying those session ids;
on `sqlite3.Error` it logs and returns normally. -/
def cleanup_old_records (db : DB) (now : Int) (days : Int) : DB × Bool :=
  match db with
  | none => (none, false)
  | some s =>
      let cutoff := now - days * 86400
      let old :=
        (s.sessions.filter (fun r => decide (r.start_time < cutoff))).map
          (fun r => r.session_id)
      (some { sessions := s.sessions.filter (fun r => ! old.contains r.session_id),
              processed := s.processed.filter (fun r => ! old.contains r.session_id),
              running := s.running.filter (fun r => ! old.contains r.session_id) },
        false)

/-!
Display-name extraction (`_extract_procedure_name`, monitor.py:458-491).
Three regular expressions are tried in order, each searched case-insensitively
anywhere in the query text; the first two capture the procedure name as
group 1 after a fixed schema literal, the third as group 2 after an optional
schema segment.  `re.search` with these patterns is deterministic: every
sub-pattern boundary separates disjoint character classes, so greedy maximal
munch coincides with the backtracking semantics.
-/

/-- Character class `[A-Za-z_]` (start of an identifier). -/
def isIdentStart (c : Char) : Bool :=
  ( 'A' ≤ c && c ≤ 'Z') || ( 'a' ≤ c && c ≤ 'z') || c == '_'

/-- Character class `[A-Za-z0-9_]` (continuation of an identifier). -/
def isIdentChar (c : Char) : Bool :=
  isIdentStart c || ( '0' ≤ c && c ≤ '9')

/-- Python `\s` over ASCII: space, tab, newline, carriage return, vertical
tab, form feed. -/
def isPySpace (c : Char) : Bool :=
  c == ' ' || c == '\t' || c == '\n' || c == '\r' || c == '\x0b' || c == '\x0c'

/-- Case-insensitive character comparison (`re.IGNORECASE`). -/
def eqNoCase (a b : Char) : Bool :=
  a.toLower == b.toLower

/-- Match a literal (case-insensitively) at the head of the input, returning
the rest. -/
def matchLit : List Char → List Char → Option (List Char)
  | [], s => some s
  | _ :: _, [] => none
  | p :: ps, c :: cs => if eqNoCase p c then matchLit ps cs else none

/-- Consume `\s*`. -/
def dropSpaces : List Char → List Char
  | [] => []
  | c :: cs => if isPySpace c then dropSpaces cs else c :: cs

/-- Match `\s+` at the head of the input. -/
def matchSpaces1 : List Char → Option (List Char)
  | [] => none
  | c :: cs => if isPySpace c then some (dropSpaces cs) else none

/-- Greedily take identifier-continuation characters. -/
def takeIdentChars : List Char → List Char × List Char
  | [] => ([], [])
  | c :: cs =>
      if isIdentChar c then
        let p := takeIdentChars cs
        (c :: p.1, p.2)
      else ([], c :: cs)

/-- Match `[A-Za-z_][A-Za-z0-9_]*` (maximal munch), returning the matched
identifier and the rest. -/
def matchIdent (s : List Char) : Option (String × List Char) :=
  match s with
  | [] => none
  | c :: cs =>
      if isIdentStart c then
        let p := takeIdentChars cs
        some (String.mk (c :: p.1), p.2)
      else none

/-- Match `\s*\(` at the head of the input. -/
def matchParen (s : List Char) : Bool :=
  match dropSpaces s with
  | '(' :: _ => true
  | [] => false
  | _ :: _ => false

/-- Literal prefix of the two schema-specific patterns and of the fallback
pattern: `CALL\s+` followed by the given literal. -/
def matchCallLit (lit : List Char) (s : List Char) : Option (List Char) := do
  let s1 ← matchLit ( "CALL").data s
  let s2 ← matchSpaces1 s1
  matchLit lit s2

/-- The schema literal of the first pattern. -/
def stgSchemaLit : List Char :=
  String.data "FINANCIERO.MAGIC_CI_DATA_STG."

/-- The schema literal of the second pattern. -/
def dataSchemaLit : List Char :=
  String.data "FINANCIERO.MAGIC_CI_DATA."

/-- The literal of the fallback pattern before the optional schema segment. -/
def finSchemaLit : List Char :=
  String.data "FINANCIERO."

/-- Try `CALL\s+<schema>([A-Za-z_][A-Za-z0-9_]*)\s*\(` at one position,
returning capture group 1 (patterns 1 and 2 of
`_extract_procedure_name`). -/
def matchSchemaPattern (schema : List Char) (s : List Char) : Option String := do
  let s1 ← matchCallLit schema s
  let p ← matchIdent s1
  if matchParen p.2 then some p.1 else none

/-- Try `CALL\s+FINANCIERO\.([A-Za-z_][A-Za-z0-9_]*\.)?([A-Za-z_][A-Za-z0-9_]*)\s*\(`
at one position, returning capture group 2 (pattern 3 of
`_extract_procedure_name`).  When a dot follows the first identifier the
optional group must participate (with the group absent the next pattern
character would have to be whitespace or an opening parenthesis, never a
dot), so the translation is deterministic. -/
def matchFallbackPattern (s : List Char) : Option String := do
  let s1 ← matchCallLit finSchemaLit s
  let p ← matchIdent s1
  match p.2 with
  | '.' :: s2 => do
      let q ← matchIdent s2
      if matchParen q.2 then some q.1 else none
  | rest => if matchParen rest then some p.1 else none

/-- `re.search`: try the pattern at each start position, leftmost match
wins. -/
def searchPattern (p : List Char → Option String) : List Char → Option String
  | [] => p []
  | c :: cs =>
      match p (c :: cs) with
      | some r => some r
      | none => searchPattern p cs

/-- `_extract_procedure_name` (monitor.py:458-491): the three patterns are
tried in order over the whole query text; the first one that matches
determines the returned name; if none matches the sentinel `UNKNOWN` is
returned. -/
def extract_procedure_name (q : String) : String :=
  match searchPattern (matchSchemaPattern stgSchemaLit) q.data with
  | some n => n
  | none =>
      match searchPattern (matchSchemaPattern dataSchemaLit) q.data with
      | some n => n
      | none =>
          match searchPattern matchFallbackPattern q.data with
          | some n => n
          | none => "UNKNOWN"

/-- One event row of the Snowflake poll result, reduced to the fields that
drive control flow in `process_completed_procedures`. -/
structure Event where
  query_id : String
  query_text : String
  status : String
deriving Repr, DecidableEq

/-- The body of the per-event loop of `process_completed_procedures`
(monitor.py:540-627).  `deliverySucceeds` is the return value of the external
`send_enhanced_procedure_notification` call; the `Nat` component is the
contribution of this event to `new_procedures_count`. -/
def process_event (db : DB) (sid : Nat) (ev : Event) (deliverySucceeds : Bool)
    (now : Int) (throttleMinutes : Int) : DB × Nat :=
  if ev.status == "RUNNING" then
    if ! should_notify_running_procedure db sid ev.query_id now throttleMinutes then
      (db, 0)
    else if deliverySucceeds then
      ((mark_running_procedure_notified db sid ev.query_id
          (extract_procedure_name ev.query_text) now).1, 1)
    else (db, 0)
  else
    if is_query_processed db sid ev.query_id then (db, 0)
    else if deliverySucceeds then
      ((mark_query_processed db sid ev.query_id now).1, 1)
    else (db, 0)

/-- The empty database. -/
def emptyStore : Store :=
  { sessions := [], processed := [], running := [] }

/-- Modelled from the spec (§4.2): the throttle decision as the spec words it,
a function of the stored throttle state `(first_notified_at, last_notified_at)`,
the current time and the interval: absent state means NOTIFY; otherwise NOTIFY
iff `now - last_notified_at ≥ interval`, else SKIP. -/
def throttle_decision_spec (state : Option (Int × Int)) (now interval : Int) :
    Bool :=
  match state with
  | none => true
  | some p => decide (interval ≤ now - p.2)

/-- Number of `processed_queries` rows for a given `(query_id, session_id)`. -/
def countProcessed (s : Store) (qid : String) (sid : Nat) : Nat :=
  (s.processed.filter (processedMatch qid sid)).length

/-- Some session row with the given id is older than the cutoff. -/
def sessionOld (s : Store) (cutoff : Int) (sid : Nat) : Prop :=
  ∃ x ∈ s.sessions, x.session_id = sid ∧ x.start_time < cutoff

/-- A store whose only session is ACTIVE and started at time 0. -/
def activeOldStore : Store :=
  { sessions := [{ session_id := 1, start_time := 0, end_time := none,
                   status := "ACTIVE" }],
    processed := [], running := [] }

end SnowflakeMonitor

namespace SnowflakeMonitor

/-- C2: the throttle decision of `_should_notify_running_procedure` is a
deterministic function of the stored throttle state, the current time and the
configured interval: absent row means NOTIFY, an existing row means NOTIFY iff
`now - last_notified_at ≥ throttle_minutes * 60` and SKIP otherwise; the
comparison uses `last_notified_at`, not `first_notified_at`. -/
theorem should_notify_matches_throttle_spec (s : Store) (sid : Nat)
    (qid : String) (now m : Int) :
    should_notify_running_procedure (some s) sid qid now m
      = throttle_decision_spec
          ((findRunning s qid sid).map
            (fun r => (r.first_notified_at, r.last_notified_at)))
          now (m * 60) := by
  cases h : findRunning s qid sid <;>
    simp [should_notify_running_procedure, throttle_decision_spec, h]

/-- C5 counterexample: on a storage error (`sqlite3.Error`, modelled by the
`none` handle) `_should_notify_running_procedure` returns `False` (SKIP), not
`True` (NOTIFY) as the claim states: it fails closed, not open. -/
theorem should_notify_on_store_error_fails_closed :
    should_notify_running_procedure none 1 "Q1" 1000 15 = false := rfl

/-- C5 (amended): on a storage read error `_is_query_processed` fails open,
returning `False` (treat as not yet processed), but the throttle lookup
`_should_notify_running_procedure` returns `False` (SKIP), failing closed and
suppressing the notification for that cycle. -/
theorem read_failure_semantics (sid : Nat) (qid : String) (now m : Int) :
    is_query_processed none sid qid = false ∧
    should_notify_running_procedure none sid qid now m = false :=
  ⟨rfl, rfl⟩

/-- C6 counterexample: a storage failure during `_mark_query_processed` and
`_mark_running_procedure_notified` (the `none` handle) is not reported to the
caller: no exception escapes either method (second component `false`),
contradicting the claim that write failures are reported as failures. -/
theorem write_failure_not_reported :
    (mark_query_processed none 1 "Q1" 0).2 = false ∧
    (mark_running_procedure_notified none 1 "Q1" "PROC" 0).2 = false :=
  ⟨rfl, rfl⟩

/-- C6 (amended): the write operations `_mark_query_processed` and
`_mark_running_procedure_notified` catch `sqlite3.Error` internally and only
log it: no failure ever escapes to the caller, and on a storage failure the
store is left unmodified, so the orchestrator counts a delivered notification
as recorded even when the store write did not commit. -/
theorem write_failure_swallowed (db : DB) (sid : Nat) (qid pname : String)
    (now : Int) :
    (mark_query_processed db sid qid now).2 = false ∧
    (mark_running_procedure_notified db sid qid pname now).2 = false ∧
    (mark_query_processed none sid qid now).1 = none ∧
    (mark_running_procedure_notified none sid qid pname now).1 = none := by
  refine ⟨?_, ?_, rfl, rfl⟩
  · cases db with
    | none => rfl
    | some s =>
        simp only [mark_query_processed]
        split <;> rfl
  · cases db <;> rfl

/-- C3: the store is written only after delivery reports success: if
`send_enhanced_procedure_notification` returns `False`, the per-event loop
body leaves the database exactly as it was and counts nothing, for terminal
and RUNNING events alike, so the event re-enters the dedup or throttle
decision unchanged on the next cycle. -/
theorem delivery_failure_leaves_store (db : DB) (sid : Nat) (ev : Event)
    (now m : Int) :
    process_event db sid ev false now m = (db, 0) := by
  unfold process_event
  split <;> split <;> simp

/-- C10: `_extract_procedure_name` is a pure total function of the query
text: the three pattern rules are tried in sequence, the first matching rule
determines the returned name (group 1 for the two schema-specific patterns,
group 2 for the fallback pattern), and when no pattern matches the sentinel
`UNKNOWN` is returned (and, being a total function, it never raises). -/
theorem extract_procedure_name_rules (q : String) :
    (∃ n, searchPattern (matchSchemaPattern stgSchemaLit) q.data = some n ∧
       extract_procedure_name q = n) ∨
    (searchPattern (matchSchemaPattern stgSchemaLit) q.data = none ∧
     ∃ n, searchPattern (matchSchemaPattern dataSchemaLit) q.data = some n ∧
       extract_procedure_name q = n) ∨
    (searchPattern (matchSchemaPattern stgSchemaLit) q.data = none ∧
     searchPattern (matchSchemaPattern dataSchemaLit) q.data = none ∧
     ∃ n, searchPattern matchFallbackPattern q.data = some n ∧
       extract_procedure_name q = n) ∨
    (searchPattern (matchSchemaPattern stgSchemaLit) q.data = none ∧
     searchPattern (matchSchemaPattern dataSchemaLit) q.data = none ∧
     searchPattern matchFallbackPattern q.data = none ∧
     extract_procedure_name q = "UNKNOWN") := by
  cases h1 : searchPattern (matchSchemaPattern stgSchemaLit) q.data with
  | some n => exact Or.inl ⟨n, rfl, by simp [extract_procedure_name, h1]⟩
  | none =>
      cases h2 : searchPattern (matchSchemaPattern dataSchemaLit) q.data with
      | some n =>
          exact Or.inr (Or.inl ⟨rfl, n, rfl, by
            simp [extract_procedure_name, h1, h2]⟩)
      | none =>
          cases h3 : searchPattern matchFallbackPattern q.data with
          | some n =>
              exact Or.inr (Or.inr (Or.inl ⟨rfl, rfl, n, rfl, by
                simp [extract_procedure_name, h1, h2, h3]⟩))
          | none =>
              exact Or.inr (Or.inr (Or.inr ⟨rfl, rfl, rfl, by
                simp [extract_procedure_name, h1, h2, h3]⟩))

/-- `find?` skips a prefix in which nothing satisfies the predicate. -/
theorem find?_append_of_eq_none {α : Type} (p : α → Bool) {l1 : List α}
    (l2 : List α) (h : l1.find? p = none) :
    (l1 ++ l2).find? p = l2.find? p := by
  induction l1 with
  | nil => rfl
  | cons a l ih =>
      cases hpa : p a with
      | true => simp [List.find?_cons, hpa] at h
      | false =>
          rw [List.find?_cons_of_neg _ (by simp [hpa])] at h
          rw [List.cons_append, List.find?_cons_of_neg _ (by simp [hpa])]
          exact ih h

/-- Looking up `(query_id, session_id)` after the UPDATE statement of
`_mark_running_procedure_notified` yields the stored row with only
`last_notified_at` and `status` overwritten. -/
theorem find?_updateRunningLast (l : List RunningRow) (qid : String)
    (sid : Nat) (t : Int) :
    (updateRunningLast l qid sid t).find? (runningMatch qid sid)
      = (l.find? (runningMatch qid sid)).map
          (fun r => { r with last_notified_at := t, status := "RUNNING" }) := by
  induction l with
  | nil => rfl
  | cons a l ih =>
      cases hpa : runningMatch qid sid a with
      | true =>
          have hpa2 : runningMatch qid sid
              { a with last_notified_at := t, status := "RUNNING" } = true := by
            simpa [runningMatch] using hpa
          rw [updateRunningLast, List.map_cons, if_pos hpa]
          rw [List.find?_cons_of_pos _ hpa2, List.find?_cons_of_pos _ hpa]
          rfl
      | false =>
          rw [updateRunningLast, List.map_cons, if_neg (by simp [hpa])]
          rw [List.find?_cons_of_neg _ (by simp [hpa]),
            List.find?_cons_of_neg _ (by simp [hpa])]
          exact ih

/-- Across any further sequence of `_mark_running_procedure_notified` calls,
an existing row keeps its `first_notified_at`, and its `last_notified_at`
ends at the last call time (or stays put when there is no further call). -/
theorem record_calls_keeps (sid : Nat) (qid pname : String) :
    ∀ (ts : List Int) (s : Store) (r : RunningRow),
      findRunning s qid sid = some r →
      ∃ rr, findRunning (record_calls s sid qid pname ts) qid sid = some rr ∧
        rr.first_notified_at = r.first_notified_at ∧
        rr.last_notified_at = ts.getLastD r.last_notified_at
  | [], s, r, h => ⟨r, h, rfl, rfl⟩
  | t :: ts, s, r, h => by
      have hstep : findRunning (recordStep s sid qid pname t) qid sid
          = some { r with last_notified_at := t, status := "RUNNING" } := by
        have h2 : List.find? (runningMatch qid sid) s.running = some r := h
        rw [recordStep, h]
        show (updateRunningLast s.running qid sid t).find? (runningMatch qid sid) = _
        rw [find?_updateRunningLast, h2]
        rfl
      rcases record_calls_keeps sid qid pname ts (recordStep s sid qid pname t)
          { r with last_notified_at := t, status := "RUNNING" } hstep with
        ⟨rr, hfind, hfirst, hlast⟩
      exact ⟨rr, hfind, hfirst, by rw [hlast, List.getLastD_cons]⟩

/-- The first call on a fresh `(query_id, session_id)` inserts a row with
both timestamps equal to the call time. -/
theorem recordStep_insert (s : Store) (sid : Nat) (qid pname : String)
    (t : Int) (h : findRunning s qid sid = none) :
    findRunning (recordStep s sid qid pname t) qid sid
      = some { query_id := qid, session_id := sid, procedure_name := pname,
               first_notified_at := t, last_notified_at := t,
               status := "RUNNING" } := by
  rw [recordStep, h]
  show (s.running ++ [_]).find? (runningMatch qid sid) = _
  rw [find?_append_of_eq_none _ _ h]
  rw [List.find?_cons_of_pos]
  simp [runningMatch]

/-- Along a non-decreasing list, the last element of each prefix is
monotone in the prefix length. -/
theorem getLastD_take_mono : ∀ (l : List Int) (x : Int),
    List.Chain' (fun a b : Int => a ≤ b) l →
    ∀ n : Nat, (l.take (n + 1)).getLastD x ≤ (l.take (n + 2)).getLastD x
  | [], _, _, _ => le_refl _
  | [_], _, _, n => by cases n <;> simp
  | a :: b :: l2, x, h, 0 => by
      rcases List.chain'_cons.mp h with ⟨hab, _⟩
      simpa using hab
  | a :: b :: l2, x, h, n + 1 => by
      rcases List.chain'_cons.mp h with ⟨_, htl⟩
      have hrec := getLastD_take_mono (b :: l2) a htl n
      simpa [List.getLastD_cons] using hrec

/-- C1: starting with no `running_procedures` row for
`(query_id, session_id)`, a sequence of `_mark_running_procedure_notified`
calls at times `t, ts…` first inserts a row with
`first_notified_at = last_notified_at = t`; after the Nth call (N ≥ 1) the
row still has `first_notified_at = t` and its `last_notified_at` is the time
of the Nth call, so if the clock never moves backward (the call times are
non-decreasing) `last_notified_at` is monotonically non-decreasing. -/
theorem record_throttle_notification_cadence (s : Store) (sid : Nat)
    (qid pname : String) (t : Int) (ts : List Int)
    (h : findRunning s qid sid = none) :
    (∃ r1, findRunning (record_calls s sid qid pname [t]) qid sid = some r1 ∧
       r1.first_notified_at = t ∧ r1.last_notified_at = t) ∧
    (∀ n : Nat, ∃ r,
       findRunning (record_calls s sid qid pname ((t :: ts).take (n + 1)))
           qid sid = some r ∧
       r.first_notified_at = t ∧
       r.last_notified_at = ((t :: ts).take (n + 1)).getLastD t) ∧
    (List.Chain' (fun a b : Int => a ≤ b) (t :: ts) → ∀ n : Nat,
       ((t :: ts).take (n + 1)).getLastD t
         ≤ ((t :: ts).take (n + 2)).getLastD t) := by
  have hins := recordStep_insert s sid qid pname t h
  refine ⟨?_, ?_, fun hch n => getLastD_take_mono (t :: ts) t hch n⟩
  · exact ⟨_, hins, rfl, rfl⟩
  · intro n
    rw [List.take_succ_cons]
    show ∃ r, findRunning
        (record_calls (recordStep s sid qid pname t) sid qid pname (ts.take n))
        qid sid = some r ∧ _
    rcases record_calls_keeps sid qid pname (ts.take n) _ _ hins with
      ⟨rr, hfind, hfirst, hlast⟩
    exact ⟨rr, hfind, hfirst, by rw [hlast, List.getLastD_cons]⟩

/-- C1 witness: three calls at times 10, 20, 40 on the empty store. -/
theorem record_throttle_notification_cadence_witness :
    findRunning emptyStore "Q1" 1 = none ∧
    ((∃ r1, findRunning (record_calls emptyStore 1 "Q1" "P" [10]) "Q1" 1 = some r1 ∧
        r1.first_notified_at = 10 ∧ r1.last_notified_at = 10) ∧
      (∀ n : Nat, ∃ r,
        findRunning (record_calls emptyStore 1 "Q1" "P"
            (([10, 20, 40] : List Int).take (n + 1))) "Q1" 1 = some r ∧
        r.first_notified_at = 10 ∧
        r.last_notified_at = (([10, 20, 40] : List Int).take (n + 1)).getLastD 10) ∧
      (List.Chain' (fun a b : Int => a ≤ b) [10, 20, 40] → ∀ n : Nat,
        (([10, 20, 40] : List Int).take (n + 1)).getLastD 10
          ≤ (([10, 20, 40] : List Int).take (n + 2)).getLastD 10)) :=
  ⟨rfl, record_throttle_notification_cadence emptyStore 1 "Q1" "P" 10 [20, 40] rfl⟩

/-- The session-id list selected by the first query of `cleanup_old_records`
contains `n` exactly when some session row with id `n` is older than the
cutoff. -/
theorem old_contains_iff (s : Store) (cutoff : Int) (n : Nat) :
    ((s.sessions.filter (fun r => decide (r.start_time < cutoff))).map
        (fun r => r.session_id)).contains n = true ↔ sessionOld s cutoff n := by
  rw [List.elem_iff, List.mem_map]
  constructor
  · rintro ⟨x, hx, hid⟩
    rcases List.mem_filter.mp hx with ⟨hmem, hlt⟩
    exact ⟨x, hmem, hid, by simpa using hlt⟩
  · rintro ⟨x, hmem, hid, hlt⟩
    exact ⟨x, List.mem_filter.mpr ⟨hmem, by simpa using hlt⟩, hid⟩

/-- Contrapositive form of `old_contains_iff`. -/
theorem old_contains_false_iff (s : Store) (cutoff : Int) (n : Nat) :
    ((s.sessions.filter (fun r => decide (r.start_time < cutoff))).map
        (fun r => r.session_id)).contains n = false ↔
      ¬ sessionOld s cutoff n := by
  rw [← old_contains_iff s cutoff n, Bool.eq_false_iff]

/-- C4 counterexample: the retention sweep does not exempt the currently
ACTIVE session: with the single session ACTIVE and 8 days old
(start_time 0, now = 691200 = 8 days, retention 7 days, cutoff 86400),
`cleanup_old_records` deletes it, while the claim states the ACTIVE session
is never deleted regardless of its age. -/
theorem cleanup_deletes_active_session :
    activeOldStore.sessions
      = [({ session_id := 1, start_time := 0, end_time := none,
            status := "ACTIVE" } : SessionRow)] ∧
    (cleanup_old_records (some activeOldStore) 691200 7).1 = some emptyStore :=
  ⟨rfl, by decide⟩

/-- C4 (amended): the retention sweep with cutoff `now - days` deletes every
session row older than the cutoff; a row of any of the three tables survives
exactly when it was there before and its session id does not belong to a
session older than the cutoff (so, with unique session ids, sessions at or
after the cutoff and their child rows are kept) — the currently ACTIVE
session is not exempted: if it is older than the cutoff it is deleted like
any other. -/
theorem cleanup_old_records_semantics (s : Store) (now days : Int) :
    ∃ s1, (cleanup_old_records (some s) now days).1 = some s1 ∧
      (∀ r ∈ s.sessions, r.start_time < now - days * 86400 → r ∉ s1.sessions) ∧
      (∀ r : SessionRow, r ∈ s1.sessions ↔
         r ∈ s.sessions ∧ ¬ sessionOld s (now - days * 86400) r.session_id) ∧
      (∀ p : ProcessedRow, p ∈ s1.processed ↔
         p ∈ s.processed ∧ ¬ sessionOld s (now - days * 86400) p.session_id) ∧
      (∀ r : RunningRow, r ∈ s1.running ↔
         r ∈ s.running ∧ ¬ sessionOld s (now - days * 86400) r.session_id) := by
  refine ⟨_, rfl, ?_, ?_, ?_, ?_⟩
  · intro r hr hlt hmem
    rcases List.mem_filter.mp hmem with ⟨_, hk⟩
    rw [Bool.not_eq_eq_eq_not, Bool.not_true, old_contains_false_iff] at hk
    exact hk ⟨r, hr, rfl, hlt⟩
  · intro r
    rw [List.mem_filter, Bool.not_eq_eq_eq_not, Bool.not_true,
      old_contains_false_iff]
  · intro p
    rw [List.mem_filter, Bool.not_eq_eq_eq_not, Bool.not_true,
      old_contains_false_iff]
  · intro r
    rw [List.mem_filter, Bool.not_eq_eq_eq_not, Bool.not_true,
      old_contains_false_iff]

/-- C7: `_mark_query_processed` is idempotent: starting from a store
satisfying the primary-key invariant (at most one row per
`(query_id, session_id)`), calling it twice raises no error, leaves exactly
one `processed_queries` row for the pair, the second call has no additional
effect, and `_is_query_processed` is true afterwards. -/
theorem mark_query_processed_idem (s : Store) (sid : Nat) (qid : String)
    (t1 t2 : Int) (hpk : countProcessed s qid sid ≤ 1) :
    ∃ s1, mark_query_processed (some s) sid qid t1 = (some s1, false) ∧
      mark_query_processed (some s1) sid qid t2 = (some s1, false) ∧
      countProcessed s1 qid sid = 1 ∧
      is_query_processed (some s1) sid qid = true := by
  by_cases h : s.processed.any (processedMatch qid sid)
  · refine ⟨s, by simp [mark_query_processed, h], by simp [mark_query_processed, h], ?_, by simpa [is_query_processed] using h⟩
    have h1 : 0 < countProcessed s qid sid := by
      rcases List.any_eq_true.mp h with ⟨x, hx, hpx⟩
      have hm : x ∈ s.processed.filter (processedMatch qid sid) :=
        List.mem_filter.mpr ⟨hx, hpx⟩
      exact List.length_pos.mpr (List.ne_nil_of_mem hm)
    omega
  · have hnil : s.processed.filter (processedMatch qid sid) = [] := by
      rw [List.filter_eq_nil_iff]
      intro a ha
      exact fun hpa => h (List.any_eq_true.mpr ⟨a, ha, hpa⟩)
    have hrow : processedMatch qid sid
        { query_id := qid, session_id := sid, processed_at := t1 } = true := by
      simp [processedMatch]
    refine ⟨{ s with processed := s.processed ++
        [{ query_id := qid, session_id := sid, processed_at := t1 }] },
      by simp [mark_query_processed, h], ?_, ?_, ?_⟩
    · simp [mark_query_processed, List.any_append, h, hrow]
    · simp [countProcessed, List.filter_append, hnil, hrow]
    · simp [is_query_processed, List.any_append, hrow]

/-- C7 witness: idempotence at a concrete input (empty store, session 1,
event id Q1). -/
theorem mark_query_processed_idem_witness :
    countProcessed emptyStore "Q1" 1 ≤ 1 ∧
    ∃ s1, mark_query_processed (some emptyStore) 1 "Q1" 0 = (some s1, false) ∧
      mark_query_processed (some s1) 1 "Q1" 5 = (some s1, false) ∧
      countProcessed s1 "Q1" 1 = 1 ∧
      is_query_processed (some s1) 1 "Q1" = true :=
  ⟨by decide, mark_query_processed_idem emptyStore 1 "Q1" 0 5 (by decide)⟩

/-- C8: deduplication is session-scoped, not global: after marking event
`qid` processed in session `sid`, `_is_query_processed` is true under `sid`,
while under any other session id `sidB` that has not itself processed `qid`
it stays false, so the event is eligible for notification again there. -/
theorem dedup_session_scoped (s : Store) (sid sidB : Nat) (qid : String)
    (t : Int) (hne : sidB ≠ sid)
    (hfresh : is_query_processed (some s) sidB qid = false) :
    ∃ s1, (mark_query_processed (some s) sid qid t).1 = some s1 ∧
      is_query_processed (some s1) sid qid = true ∧
      is_query_processed (some s1) sidB qid = false := by
  have hbe : (sid == sidB) = false := by
    simpa using Ne.symm hne
  by_cases h : s.processed.any (processedMatch qid sid)
  · exact ⟨s, by simp [mark_query_processed, h],
      by simpa [is_query_processed] using h, hfresh⟩
  · refine ⟨{ s with processed := s.processed ++
        [{ query_id := qid, session_id := sid, processed_at := t }] },
      by simp [mark_query_processed, h], ?_, ?_⟩
    · simp [is_query_processed, List.any_append, processedMatch]
    · have hany : s.processed.any (processedMatch qid sidB) = false := hfresh
      simp [is_query_processed, List.any_append, processedMatch, hany, hbe]

/-- C8 witness: concrete instance with sessions 1 and 2 on the empty
store. -/
theorem dedup_session_scoped_witness :
    (2 : Nat) ≠ 1 ∧
    is_query_processed (some emptyStore) 2 "Q1" = false ∧
    ∃ s1, (mark_query_processed (some emptyStore) 1 "Q1" 0).1 = some s1 ∧
      is_query_processed (some s1) 1 "Q1" = true ∧
      is_query_processed (some s1) 2 "Q1" = false :=
  ⟨by decide, by decide, dedup_session_scoped emptyStore 1 2 "Q1" 0 (by decide) (by decide)⟩

/-- C9: processing an event with a terminal (non-RUNNING) status neither
reads nor writes the `running_procedures` table: the resulting store keeps
`running` (and `sessions`) unchanged, and replacing the `running` table by
anything else changes neither the count contribution nor the resulting
`processed_queries` table — the dedup decision is made solely on
`processed_queries`. -/
theorem terminal_event_frame (s : Store) (sid : Nat) (ev : Event)
    (deliver : Bool) (now m : Int) (hterm : ev.status ≠ "RUNNING") :
    (∃ s1, (process_event (some s) sid ev deliver now m).1 = some s1 ∧
       s1.running = s.running ∧ s1.sessions = s.sessions) ∧
    (∀ rl : List RunningRow,
      (process_event (some { s with running := rl }) sid ev deliver now m).2
        = (process_event (some s) sid ev deliver now m).2 ∧
      Option.map Store.processed
          (process_event (some { s with running := rl }) sid ev deliver now m).1
        = Option.map Store.processed
            (process_event (some s) sid ev deliver now m).1) := by
  have hb : (ev.status == "RUNNING") = false := by
    simpa using hterm
  by_cases hp : s.processed.any (processedMatch ev.query_id sid)
  · constructor
    · exact ⟨s, by simp [process_event, hb, is_query_processed, hp], rfl, rfl⟩
    · intro rl
      constructor <;> simp [process_event, hb, is_query_processed, hp]
  · cases deliver with
    | false =>
        constructor
        · exact ⟨s, by simp [process_event, hb, is_query_processed, hp], rfl, rfl⟩
        · intro rl
          constructor <;> simp [process_event, hb, is_query_processed, hp]
    | true =>
        constructor
        · refine ⟨{ s with processed := s.processed ++
            [{ query_id := ev.query_id, session_id := sid, processed_at := now }] },
            ?_, rfl, rfl⟩
          simp [process_event, hb, is_query_processed, hp, mark_query_processed]
        · intro rl
          constructor <;>
            simp [process_event, hb, is_query_processed, hp, mark_query_processed]

/-- C9 witness: concrete terminal event on the empty store. -/
theorem terminal_event_frame_witness :
    ( { query_id := "Q1", query_text := "T", status := "SUCCESS" } : Event).status ≠ "RUNNING" ∧
    ((∃ s1, (process_event (some emptyStore) 1
          { query_id := "Q1", query_text := "T", status := "SUCCESS" } true 0 30).1 = some s1 ∧
        s1.running = emptyStore.running ∧ s1.sessions = emptyStore.sessions) ∧
      (∀ rl : List RunningRow,
        (process_event (some { emptyStore with running := rl }) 1
            { query_id := "Q1", query_text := "T", status := "SUCCESS" } true 0 30).2
          = (process_event (some emptyStore) 1
              { query_id := "Q1", query_text := "T", status := "SUCCESS" } true 0 30).2 ∧
        Option.map Store.processed
            (process_event (some { emptyStore with running := rl }) 1
              { query_id := "Q1", query_text := "T", status := "SUCCESS" } true 0 30).1
          = Option.map Store.processed
              (process_event (some emptyStore) 1
                { query_id := "Q1", query_text := "T", status := "SUCCESS" } true 0 30).1)) :=
  ⟨by decide,
    terminal_event_frame emptyStore 1
      { query_id := "Q1", query_text := "T", status := "SUCCESS" } true 0 30 (by decide)⟩

end SnowflakeMonitor
